import Mathlib

/-!
Verification of the headless-browser UI verification scripts
(`verify_ui.py` and the scripts under `verification/`) against their
natural-language specification.

Each Python script is shallowly embedded as a pure Lean function from a
"world" (the observable behaviour of the page under test: which waits
succeed, which elements are visible, which attribute values are present)
to a `RunOut`: the ordered trace of browser-visible events the script
performs (navigations, waits, clicks, screenshots, printed messages,
browser close) together with a flag recording whether an unhandled Python
exception propagated out of the entry-point function.  Playwright
primitives that raise on failure (`goto`, `wait_for_selector`,
`expect(...).to_be_visible()`, `screenshot`) are modelled by boolean
world fields; a `False` field makes the corresponding step raise at that
point, exactly as the Python exception would, and control then follows
the script's own `try`/`except`/`finally` structure (or, where the
script has none, propagates out).
-/

/-- A browser-visible event performed by a script, in program order. -/
inductive Ev where
  | goto (url : String)
  | waitFor (sel : String)
  | click (sel : String)
  | screenshot (path : String)
  | getAttr (sel attr : String)
  | reload
  | armPopup
  | msg (s : String)
  | evalJs (descr : String)
  | expectVisible (descr : String)
  | mkdirIfAbsent (dir : String)
  | close
deriving DecidableEq, Repr

/-- Outcome of running one script: its event trace, and whether an
unhandled exception escaped the entry-point function. -/
structure RunOut where
  trace : List Ev
  exc : Bool
deriving DecidableEq, Repr

/-- Process exit status of `python script.py`: 0 when the entry point
returns normally, 1 when an unhandled exception reaches the top level. -/
def exitCode (r : RunOut) : Nat :=
  if r.exc then 1 else 0

/-- Number of `browser.close()` calls in a trace. -/
def countClose : List Ev → Nat
  | [] => 0
  | Ev.close :: t => countClose t + 1
  | _ :: t => countClose t

/-- Whether an event is a screenshot write. -/
def isShot : Ev → Bool
  | Ev.screenshot _ => true
  | _ => false

/-- The repository URL that the link checks compare against. -/
def repoUrl : String := "https://github.com/vaultkeeperirl-design/xIT-Video-Studio"

/-- How Python renders an optional attribute value inside an f-string:
`None` for a missing attribute, the raw string otherwise. -/
def hrefStr : Option String → String
  | none => "None"
  | some s => s

/-! ## verify_links.py (`verify_github_links`) -/

/-- Page behaviour observable by `verify_github_links`. -/
structure LinksWorld where
  gotoOk : Bool
  helpAppears : Bool
  aboutVisible : Bool
  modalAppears : Bool
  aboutHref : Option String
  popupOpens : Bool
  popupUrl : String

/-- The messages printed by the Documentation popup check: on a popup,
its target URL and the check verdict; on a popup timeout, the
diagnostic printed by the script's `except` handler. -/
def docTail (w : LinksWorld) : List Ev :=
  if w.popupOpens then
    [Ev.msg ("Documentation Link Target: " ++ w.popupUrl),
     Ev.msg (if w.popupUrl == repoUrl then
               "SUCCESS: Documentation menu link is correct"
             else
               "FAILURE: Documentation menu link is incorrect: " ++ w.popupUrl)]
  else
    [Ev.msg "Could not verify Documentation link directly via popup: TimeoutError"]

/-- The tail of `verify_github_links` from `page.reload()` down to
`browser.close()`: reload, re-open the Help menu, then the
Documentation-link popup check.  `page.expect_popup()` arms the capture
for the next opened context before its body performs the click; a popup
timeout raises inside the `with` block and is caught by the script's
`try`/`except`, which prints a diagnostic and falls through to
`browser.close()`. -/
def documentationPhase (w : LinksWorld) (t : List Ev) : RunOut :=
  let t1 := t ++ [Ev.reload, Ev.waitFor "text=Help"]
  if !w.helpAppears then ⟨t1, true⟩ else
  ⟨t1 ++ [Ev.click "text=Help", Ev.armPopup, Ev.click "text=Documentation"] ++
     docTail w ++ [Ev.close], false⟩

/-- Embedding of `verify_github_links` (verification/verify_links.py).
The function has no `try`/`finally` around its body: any step that
raises (failed `goto`, a `wait_for_selector` timeout) propagates out of
the function and `browser.close()` is never reached. -/
def verify_github_links (w : LinksWorld) : RunOut :=
  let t0 := [Ev.goto "http://localhost:5173/"]
  if !w.gotoOk then ⟨t0, true⟩ else
  let t1 := t0 ++ [Ev.waitFor "text=Help"]
  if !w.helpAppears then ⟨t1, true⟩ else
  let t2 := t1 ++ [Ev.click "text=Help", Ev.screenshot "verification/menu_screenshot.png"]
  if w.aboutVisible then
    let t3 := t2 ++ [Ev.msg "About menu item found",
                     Ev.click "text=About xIT Video Studio", Ev.waitFor "text=GitHub"]
    if !w.modalAppears then ⟨t3, true⟩ else
    documentationPhase w
      (t3 ++ [Ev.screenshot "verification/about_modal_screenshot.png",
              Ev.getAttr "a:has-text(\x27GitHub\x27)" "href",
              Ev.msg ("About Modal GitHub Link: " ++ hrefStr w.aboutHref),
              Ev.msg (if w.aboutHref == some repoUrl then
                        "SUCCESS: About Modal GitHub link is correct"
                      else
                        "FAILURE: About Modal GitHub link is incorrect: " ++ hrefStr w.aboutHref)])
  else
    documentationPhase w (t2 ++ [Ev.msg "About menu item not found"])

/-! ## verify_ui.py (`verify_ui_elements`) -/

/-- Page behaviour observable by `verify_ui_elements`.  `errorShotOk`
states whether the screenshot attempted inside the `except` block
itself succeeds. -/
structure UiWorld where
  gotoOk : Bool
  splitAppears : Bool
  fullShotOk : Bool
  toolbarShotOk : Bool
  errorShotOk : Bool

/-- The `except` plus `finally` part of `verify_ui_elements`: print the
error, attempt `page.screenshot("verification_error.png")` — which is
not itself guarded, so its failure propagates out of the function after
the `finally` has closed the browser. -/
def uiHandler (w : UiWorld) (t : List Ev) : RunOut :=
  let t1 := t ++ [Ev.msg "Error during verification"]
  if w.errorShotOk then
    ⟨t1 ++ [Ev.screenshot "verification_error.png", Ev.close], false⟩
  else
    ⟨t1 ++ [Ev.close], true⟩

/-- Embedding of `verify_ui_elements` (verify_ui.py): the whole body is
in a `try` whose handler is `uiHandler` and whose `finally` closes the
browser on every path. -/
def verify_ui_elements (w : UiWorld) : RunOut :=
  let t0 := [Ev.msg "Navigating to app...", Ev.goto "http://localhost:5173"]
  if !w.gotoOk then uiHandler w t0 else
  let t1 := t0 ++ [Ev.msg "Waiting for toolbar...", Ev.waitFor "text=Split"]
  if !w.splitAppears then uiHandler w t1 else
  let t2 := t1 ++ [Ev.msg "Taking full page screenshot..."]
  if !w.fullShotOk then uiHandler w t2 else
  let t3 := t2 ++ [Ev.screenshot "verification_full.png", Ev.msg "Taking toolbar screenshot..."]
  if !w.toolbarShotOk then uiHandler w t3 else
  ⟨t3 ++ [Ev.screenshot "verification_toolbar.png", Ev.msg "Verification complete!", Ev.close],
   false⟩

/-! ## verification/verify_renames.py (`verify_renames`) -/

/-- Page behaviour observable by `verify_renames`: each field states
whether the corresponding `expect(...).to_be_visible()` succeeds. -/
structure RenWorld where
  gotoOk : Bool
  smartAppears : Bool
  tab1 : Bool
  tab2 : Bool
  tab3 : Bool
  imgHeader : Bool
  vidHeader : Bool

/-- Embedding of `verify_renames` (verification/verify_renames.py).
There is no `try`/`except`/`finally` at all: a failed assertion raises
out of the function with no screenshot taken and no `browser.close()`. -/
def verify_renames (w : RenWorld) : RunOut :=
  let t0 := [Ev.goto "http://localhost:5173"]
  if !w.gotoOk then ⟨t0, true⟩ else
  let t1 := t0 ++ [Ev.waitFor "text=Smart Assistant"]
  if !w.smartAppears then ⟨t1, true⟩ else
  let t2 := t1 ++ [Ev.expectVisible "button Smart Assistant"]
  if !w.tab1 then ⟨t2, true⟩ else
  let t3 := t2 ++ [Ev.expectVisible "button AI Image Lab"]
  if !w.tab2 then ⟨t3, true⟩ else
  let t4 := t3 ++ [Ev.expectVisible "button AI Video Lab"]
  if !w.tab3 then ⟨t4, true⟩ else
  let t5 := t4 ++ [Ev.click "button AI Image Lab", Ev.expectVisible "heading AI Image Lab"]
  if !w.imgHeader then ⟨t5, true⟩ else
  let t6 := t5 ++ [Ev.click "button AI Video Lab", Ev.expectVisible "heading AI Video Lab"]
  if !w.vidHeader then ⟨t6, true⟩ else
  ⟨t6 ++ [Ev.screenshot "verification/renamed_panels.png", Ev.close], false⟩

/-! ## verification/verify_scrollbars.py (`verify_scrollbars`) -/

/-- Page behaviour observable by `verify_scrollbars`. -/
structure ScrollWorld where
  gotoOk : Bool
  divAppears : Bool
  shotOk : Bool
  errShotOk : Bool

/-- The `except` plus `finally` part of `verify_scrollbars`: the error
screenshot is wrapped in an inner `try` whose bare `except: pass`
swallows a capture failure silently, so nothing raises past the
function; `finally` closes the browser. -/
def scrollHandler (w : ScrollWorld) (t : List Ev) : RunOut :=
  let t1 := t ++ [Ev.msg "Error"]
  if w.errShotOk then
    ⟨t1 ++ [Ev.screenshot "verification/error_state.png",
            Ev.msg "Error screenshot saved to verification/error_state.png", Ev.close], false⟩
  else
    ⟨t1 ++ [Ev.close], false⟩

/-- Embedding of `verify_scrollbars` (verification/verify_scrollbars.py). -/
def verify_scrollbars (w : ScrollWorld) : RunOut :=
  let t0 := [Ev.msg "Navigating to app...", Ev.goto "http://localhost:5173/"]
  if !w.gotoOk then scrollHandler w t0 else
  let t1 := t0 ++ [Ev.msg "Waiting for page load...", Ev.waitFor "div attached"]
  if !w.divAppears then scrollHandler w t1 else
  let t2 := t1 ++ [Ev.msg "Injecting content to force scroll...",
                   Ev.evalJs "append tall gradient div", Ev.evalJs "window.scrollTo 0 100",
                   Ev.msg "Taking screenshot..."]
  if !w.shotOk then scrollHandler w t2 else
  ⟨t2 ++ [Ev.screenshot "verification/scrollbar_dark.png",
          Ev.msg "Screenshot saved to verification/scrollbar_dark.png", Ev.close], false⟩

/-! ## verification/verify_menubar.py (`verify_menubar`) -/

/-- Page behaviour observable by `verify_menubar`. -/
structure MenuWorld where
  gotoOk : Bool
  ytAppears : Bool

/-- Embedding of `verify_menubar` (verification/verify_menubar.py).
No `try`/`finally`: a failed step skips both screenshots and the
close. -/
def verify_menubar (w : MenuWorld) : RunOut :=
  let t0 := [Ev.goto "http://localhost:5173"]
  if !w.gotoOk then ⟨t0, true⟩ else
  let t1 := t0 ++ [Ev.waitFor "text=YouTube"]
  if !w.ytAppears then ⟨t1, true⟩ else
  ⟨t1 ++ [Ev.screenshot "verification/menubar_icons.png",
          Ev.screenshot "verification/full_page.png", Ev.close], false⟩

/-- Embedding of the `__main__` block of verify_menubar.py: it creates
the `verification` directory if absent and then runs the scenario. -/
def verify_menubar_main (w : MenuWorld) : RunOut :=
  let r := verify_menubar w
  ⟨Ev.mkdirIfAbsent "verification" :: r.trace, r.exc⟩

/-! ## verification/verify_auto_edit.py (`verify_auto_edit`) -/

/-- Page behaviour observable by `verify_auto_edit`: whether navigation
succeeds and how many elements the textarea locator matches. -/
structure AutoWorld where
  gotoOk : Bool
  textareaCount : Nat

/-- Embedding of `verify_auto_edit` (verification/verify_auto_edit.py):
locate the placeholder textarea; only when it matches at least one
element print a message and take a screenshot; then close. -/
def verify_auto_edit (w : AutoWorld) : RunOut :=
  let t0 := [Ev.goto "http://localhost:3000"]
  if !w.gotoOk then ⟨t0, true⟩ else
  if w.textareaCount > 0 then
    ⟨t0 ++ [Ev.msg "Video needed to trigger auto-edit",
            Ev.screenshot "verification/initial_state.png", Ev.close], false⟩
  else
    ⟨t0 ++ [Ev.close], false⟩

/-! ## Selector Resolver

Modelled from the spec: the Selector Resolver component (`resolve`) of
the design does not exist as code under src/ — the scripts call the
browser library's locator primitives directly — so it is modelled here
from the spec's words (section 4.1 and the LocatorSpec data model):
a declarative spec is one of text-content match, role+accessible-name
pair, attribute equality, or a structural ancestor step (the scripts'
`.locator("..")` chains); `resolve` returns the ordered sequence of
matching element paths, an empty sequence being a valid non-error
result, and fails with `ResolutionError` only on malformed specs — a
structural path requesting an ancestor at depth 0 has no defined
ancestor semantics. -/

/-- Observable data of one DOM element. -/
structure ElemData where
  text : String
  role : String
  name : String
  attrs : List (String × String)
deriving DecidableEq, Repr

/-- A DOM: an element with its ordered children. -/
inductive Dom where
  | node (data : ElemData) (children : List Dom)
deriving Repr

/-- Base (non-structural) selector cases of a LocatorSpec. -/
inductive BaseSel where
  | textMatch (s : String)
  | roleName (role name : String)
  | attrEq (key value : String)
deriving DecidableEq, Repr

/-- Modelled from the spec: a declarative LocatorSpec — a base selector
or an ancestor step of given depth above another spec's matches. -/
inductive LocatorSpec where
  | base (b : BaseSel)
  | ancestorAt (anchor : LocatorSpec) (depth : Nat)
deriving DecidableEq, Repr

/-- Error raised only on malformed specs. -/
inductive ResolutionError where
  | malformedPath
deriving DecidableEq, Repr

/-- Whether `pre` is a prefix of `l`, over raw character lists. -/
def leadsWith : List Char → List Char → Bool
  | [], _ => true
  | _ :: _, [] => false
  | a :: as, b :: bs => a == b && leadsWith as bs

/-- Whether `needle` occurs as a contiguous substring of the second
list. -/
def subOccurs (needle : List Char) : List Char → Bool
  | [] => needle.isEmpty
  | c :: cs => leadsWith needle (c :: cs) || subOccurs needle cs

/-- Whether one element satisfies a base selector (text match is a
substring match, as with `text=` locators). -/
def basePred : BaseSel → ElemData → Bool
  | BaseSel.textMatch s, d => subOccurs s.toList d.text.toList
  | BaseSel.roleName r n, d => d.role == r && d.name == n
  | BaseSel.attrEq k v, d => d.attrs.any fun kv => kv.1 == k && kv.2 == v

mutual

/-- All paths (child-index sequences from the root, in document order)
of elements satisfying `pred`. -/
def collect (pred : ElemData → Bool) : Dom → List Nat → List (List Nat)
  | Dom.node d cs, path =>
    (if pred d then [path] else []) ++ collectList pred cs path 0

/-- Document-order traversal of a child list, `i` being the index of
the first child in `cs` within its parent. -/
def collectList (pred : ElemData → Bool) : List Dom → List Nat → Nat → List (List Nat)
  | [], _, _ => []
  | c :: cs, path, i => collect pred c (path ++ [i]) ++ collectList pred cs path (i + 1)

end

/-- Modelled from the spec: `resolve` returns the ordered sequence of
matching element paths; zero matches is a normal `ok []`; only a
malformed spec (ancestor step at depth 0) yields `ResolutionError`.
An anchor match too shallow to have an ancestor at the requested depth
simply contributes no match. -/
def resolve (dom : Dom) : LocatorSpec → Except ResolutionError (List (List Nat))
  | LocatorSpec.base b => Except.ok (collect (basePred b) dom [])
  | LocatorSpec.ancestorAt a d =>
    match d with
    | 0 => Except.error ResolutionError.malformedPath
    | Nat.succ k =>
      match resolve dom a with
      | Except.error e => Except.error e
      | Except.ok ms =>
        Except.ok (ms.filterMap fun p =>
          if k + 1 ≤ p.length then some (p.take (p.length - (k + 1))) else none)

/-- A spec is well-formed when every structural ancestor step requests
a strictly positive depth. -/
def wellFormed : LocatorSpec → Bool
  | LocatorSpec.base _ => true
  | LocatorSpec.ancestorAt a d => d != 0 && wellFormed a

/-! ## Wait Engine

Modelled from the spec: the Wait Engine component (`await_until`,
section 4.2) does not exist as code under src/ — the scripts delegate
waiting to the browser library (`wait_for_selector(..., timeout=...)`)
— so it is modelled from the spec's words: poll the condition at
multiples of the poll interval, starting at elapsed time 0, returning
`satisfied` as soon as the condition holds and `timedOut` at the first
poll at which the timeout has been reached.  Elapsed time is modelled
as poll count times the poll interval. -/

/-- Result of a wait. -/
inductive WaitResult where
  | satisfied
  | timedOut
deriving DecidableEq, Repr

/-- One polling loop: check the condition at the current elapsed time;
if it holds, succeed; otherwise time out once the timeout is reached,
else sleep one poll interval and retry.  The fuel argument bounds the
recursion and is chosen large enough in `await_until` that it is never
exhausted for a positive poll interval. -/
def awaitAux (cond : Nat → Bool) (timeout poll : Nat) : Nat → Nat → WaitResult × Nat
  | 0, elapsed => (WaitResult.timedOut, elapsed)
  | fuel + 1, elapsed =>
    if cond elapsed then (WaitResult.satisfied, elapsed)
    else if timeout ≤ elapsed then (WaitResult.timedOut, elapsed)
    else awaitAux cond timeout poll fuel (elapsed + poll)

/-- Modelled from the spec: `await_until(condition, timeout_ms,
poll_interval_ms)` returns `satisfied` or `timedOut` together with the
total elapsed waiting time. -/
def await_until (cond : Nat → Bool) (timeout poll : Nat) : WaitResult × Nat :=
  awaitAux cond timeout poll (timeout + 1) 0

/-! ## Artifact naming convention -/

/-- Strip `pre` from the front of `l`, or `none` when `l` does not
start with it. -/
def dropLead : List Char → List Char → Option (List Char)
  | [], cs => some cs
  | _ :: _, [] => none
  | p :: ps, c :: cs => if p == c then dropLead ps cs else none

/-- Strip `suf` from the end of `l`, or `none` when `l` does not end
with it. -/
def dropTail (suf l : List Char) : Option (List Char) :=
  (dropLead suf.reverse l.reverse).map List.reverse

/-- Whether every character is a decimal digit. -/
def allDigits : List Char → Bool
  | [] => true
  | c :: cs => c.isDigit && allDigits cs

/-- Split a character list on a separator character. -/
def splitOnChar (sep : Char) : List Char → List (List Char)
  | [] => [[]]
  | c :: cs =>
    let r := splitOnChar sep cs
    if c == sep then [] :: r
    else
      match r with
      | [] => [[c]]
      | g :: gs => (c :: g) :: gs

/-- The final path segment (the file name) of a slash-separated path. -/
def lastSegment (cs : List Char) : List Char :=
  ((splitOnChar (Char.ofNat 47) cs).reverse).headD cs

/-- The top-level directory of a slash-separated path, or the empty
string when the path has a single segment. -/
def topDir (path : String) : String :=
  match splitOnChar (Char.ofNat 47) path.toList with
  | g :: _ :: _ => String.mk g
  | _ => ""

/-- The spec's artifact naming convention: the file-name part of the
path must be exactly `<scenario-name>_<step-index>_<kind>.png` with a
non-empty all-digit step index and a non-empty kind. -/
def followsConvention (scenario fname : String) : Bool :=
  let base := lastSegment fname.toList
  match dropTail (".png".toList) base with
  | none => false
  | some stem =>
    match dropLead (scenario.toList ++ [Char.ofNat 95]) stem with
    | none => false
    | some rest =>
      match splitOnChar (Char.ofNat 95) rest with
      | [idx, kind] => !idx.isEmpty && allDigits idx && !kind.isEmpty
      | _ => false

/-! ## Helper lemmas -/

/-- Close events in a concatenation. -/
theorem countClose_append (a b : List Ev) : countClose (a ++ b) = countClose a + countClose b := by
  induction a with
  | nil => simp [countClose]
  | cons x t ih => cases x <;> (simp [countClose, ih]; try omega)

/-- The popup-check messages never contain a close event. -/
theorem countClose_docTail (w : LinksWorld) : countClose (docTail w) = 0 := by
  cases hp : w.popupOpens <;> simp [docTail, hp, countClose]

/-- Shape of the Documentation phase when the Help menu reappears after
the reload: the reload / wait / menu click / armed popup click, the
popup-check messages, and one final close; no exception escapes. -/
theorem documentationPhase_trace (w : LinksWorld) (t : List Ev) (hh : w.helpAppears = true) :
    (documentationPhase w t).trace =
      t ++ [Ev.reload, Ev.waitFor "text=Help", Ev.click "text=Help", Ev.armPopup,
            Ev.click "text=Documentation"] ++ docTail w ++ [Ev.close] ∧
    (documentationPhase w t).exc = false := by
  simp [documentationPhase, hh]

/-- When navigation succeeds, the Help menu appears, and the About modal
appears whenever the About item was visible, `verify_github_links`
reaches the Documentation phase with some close-free prefix trace. -/
theorem links_reaches_documentation (w : LinksWorld)
    (hg : w.gotoOk = true) (hh : w.helpAppears = true)
    (hm : w.aboutVisible = true → w.modalAppears = true) :
    ∃ t, verify_github_links w = documentationPhase w t ∧ countClose t = 0 := by
  rcases w with ⟨g, h, av, ma, href, po, pu⟩
  subst hg; subst hh
  cases av with
  | false =>
    refine ⟨[Ev.goto "http://localhost:5173/", Ev.waitFor "text=Help", Ev.click "text=Help",
             Ev.screenshot "verification/menu_screenshot.png", Ev.msg "About menu item not found"],
            ?_, ?_⟩
    · simp [verify_github_links]
    · simp [countClose]
  | true =>
    have hma : ma = true := hm rfl
    subst hma
    refine ⟨[Ev.goto "http://localhost:5173/", Ev.waitFor "text=Help", Ev.click "text=Help",
             Ev.screenshot "verification/menu_screenshot.png", Ev.msg "About menu item found",
             Ev.click "text=About xIT Video Studio", Ev.waitFor "text=GitHub",
             Ev.screenshot "verification/about_modal_screenshot.png",
             Ev.getAttr "a:has-text(\x27GitHub\x27)" "href",
             Ev.msg ("About Modal GitHub Link: " ++ hrefStr href),
             Ev.msg (if href == some repoUrl then
                       "SUCCESS: About Modal GitHub link is correct"
                     else
                       "FAILURE: About Modal GitHub link is incorrect: " ++ hrefStr href)],
            ?_, ?_⟩
    · simp [verify_github_links]
    · simp [countClose]

/-- Timing window of the polling loop on a condition that never holds:
with positive poll interval and enough fuel, the loop times out at the
first poll multiple at or past the timeout. -/
theorem awaitAux_never (cond : Nat → Bool) (timeout poll : Nat)
    (hc : ∀ n, cond n = false) :
    ∀ fuel elapsed, timeout ≤ elapsed + fuel * poll → elapsed < timeout + poll →
      (awaitAux cond timeout poll fuel elapsed).1 = WaitResult.timedOut ∧
      timeout ≤ (awaitAux cond timeout poll fuel elapsed).2 ∧
      (awaitAux cond timeout poll fuel elapsed).2 < timeout + poll := by
  intro fuel
  induction fuel with
  | zero =>
    intro elapsed h1 h2
    exact ⟨rfl, by simpa [awaitAux] using h1, by simpa [awaitAux] using h2⟩
  | succ n ih =>
    intro elapsed h1 h2
    by_cases hte : timeout ≤ elapsed
    · simp [awaitAux, hc elapsed, hte]
      omega
    · have hstep : (awaitAux cond timeout poll (n + 1) elapsed) =
          awaitAux cond timeout poll n (elapsed + poll) := by
        simp [awaitAux, hc elapsed, hte]
      rw [hstep]
      apply ih
      · have hmul : (n + 1) * poll = n * poll + poll := by ring
        omega
      · omega

/-! ## Claim C1 -/

/-- Claim C1 counterexample: in `verify_github_links`, when the wait for
the text "Help" times out (an unexpected error raised by a step), the
exception propagates out of the scenario function and `browser.close()`
is never invoked — the session-close call count is 0, not 1. -/
theorem c1_counterexample :
    countClose (verify_github_links ⟨true, false, true, true, none, true, ""⟩).trace = 0 ∧
    (verify_github_links ⟨true, false, true, true, none, true, ""⟩).exc = true :=
  ⟨rfl, rfl⟩

/-- Claim C1 (amended): `verify_ui_elements`, whose body is wrapped in
`try`/`finally`, closes the browser exactly once on every exit path;
`verify_github_links`, which has no `try`/`finally`, closes the browser
exactly once only on runs where no step raises an exception. -/
theorem c1_close_once_amended :
    (∀ w : UiWorld, countClose (verify_ui_elements w).trace = 1) ∧
    (∀ w : LinksWorld, (verify_github_links w).exc = false →
        countClose (verify_github_links w).trace = 1) := by
  constructor
  · intro w
    rcases w with ⟨g, s, f, tb, e⟩
    cases g <;> cases s <;> cases f <;> cases tb <;> cases e <;> rfl
  · intro w hw
    rcases w with ⟨g, h, av, ma, href, po, pu⟩
    cases g <;> cases h <;> cases av <;> cases ma <;> cases po <;>
      simp [verify_github_links, documentationPhase, docTail,
            countClose_append, countClose] at hw ⊢

/-- Claim C1 witness: concrete runs for both parts of the amended
statement. -/
theorem c1_witness :
    countClose (verify_ui_elements ⟨true, true, true, true, true⟩).trace = 1 ∧
    countClose (verify_github_links ⟨true, true, false, true, none, false, ""⟩).trace = 1 :=
  ⟨c1_close_once_amended.1 ⟨true, true, true, true, true⟩,
   c1_close_once_amended.2 ⟨true, true, false, true, none, false, ""⟩ rfl⟩

/-! ## Claim C2 -/

/-- Claim C2 counterexample: in `verify_renames`, a failed visibility
assertion (the "Smart Assistant" tab not visible) raises out of the
function: the run produces no screenshot at all, and teardown does not
run either — the failure mode yields no diagnostic artifact. -/
theorem c2_counterexample :
    (verify_renames ⟨true, true, false, true, true, true, true⟩).trace.all
        (fun e => !(isShot e)) = true ∧
    (verify_renames ⟨true, true, false, true, true, true, true⟩).exc = true ∧
    countClose (verify_renames ⟨true, true, false, true, true, true, true⟩).trace = 0 :=
  ⟨rfl, rfl, rfl⟩

/-- Claim C2 (amended): only the scripts with an `except` handler take
a best-effort failure screenshot.  In `verify_ui_elements` every failing
step leads to the error screenshot (when that capture itself succeeds)
and teardown; in `verify_renames` a raising step produces no screenshot
and never reaches `browser.close()`. -/
theorem c2_failure_screenshot_amended :
    (∀ w : UiWorld, w.errorShotOk = true →
        (w.gotoOk = false ∨ w.splitAppears = false ∨ w.fullShotOk = false ∨
          w.toolbarShotOk = false) →
        Ev.screenshot "verification_error.png" ∈ (verify_ui_elements w).trace ∧
        countClose (verify_ui_elements w).trace = 1) ∧
    (∀ w : RenWorld, (verify_renames w).exc = true →
        (verify_renames w).trace.all (fun e => !(isShot e)) = true ∧
        countClose (verify_renames w).trace = 0) := by
  constructor
  · intro w he hf
    rcases w with ⟨g, s, f, tb, e⟩
    subst he
    cases g <;> cases s <;> cases f <;> cases tb <;>
      first
        | decide
        | (exact absurd hf (by decide))
  · intro w hw
    rcases w with ⟨g, sa, t1, t2, t3, ih, vh⟩
    cases g <;> cases sa <;> cases t1 <;> cases t2 <;> cases t3 <;> cases ih <;> cases vh <;>
      first
        | decide
        | (exact absurd hw (by decide))

/-- Claim C2 witness: a concrete failing `verify_ui_elements` run that
does produce the error screenshot before teardown. -/
theorem c2_witness :
    Ev.screenshot "verification_error.png" ∈
        (verify_ui_elements ⟨true, false, true, true, true⟩).trace ∧
    countClose (verify_ui_elements ⟨true, false, true, true, true⟩).trace = 1 :=
  c2_failure_screenshot_amended.1 ⟨true, false, true, true, true⟩ rfl (Or.inr (Or.inl rfl))

/-! ## Claim C3 -/

/-- Claim C3 counterexample: a `verify_github_links` run in which the
About-modal link check fails (href is `https://example.com` instead of
the repository URL) prints a FAILURE line, yet the entry point returns
normally and the process exit status is 0 — a failed check does not
yield a non-zero exit status. -/
theorem c3_counterexample :
    Ev.msg "FAILURE: About Modal GitHub link is incorrect: https://example.com" ∈
      (verify_github_links
        ⟨true, true, true, true, some "https://example.com", true, repoUrl⟩).trace ∧
    exitCode (verify_github_links
        ⟨true, true, true, true, some "https://example.com", true, repoUrl⟩) = 0 := by
  refine ⟨by decide, rfl⟩

/-- Claim C3 (amended): a failed check is only reported as a printed
FAILURE line in the human-readable output; the process exit status is 0
whenever the scenario body completes without an unhandled exception,
regardless of check outcomes. -/
theorem c3_exit_status_amended (w : LinksWorld)
    (hg : w.gotoOk = true) (hh : w.helpAppears = true)
    (ha : w.aboutVisible = true) (hm : w.modalAppears = true)
    (hx : (w.aboutHref == some repoUrl) = false) :
    Ev.msg ("FAILURE: About Modal GitHub link is incorrect: " ++ hrefStr w.aboutHref) ∈
      (verify_github_links w).trace ∧
    (verify_github_links w).exc = false ∧
    exitCode (verify_github_links w) = 0 := by
  rcases w with ⟨g, h, av, ma, href, po, pu⟩
  subst hg; subst hh; subst ha; subst hm
  simp only at hx
  cases po <;>
    simp [verify_github_links, documentationPhase, docTail, exitCode, hx]

/-- Claim C3 witness: the amended statement at a concrete run with a
wrong About-modal href and no Documentation popup. -/
theorem c3_witness :
    Ev.msg ("FAILURE: About Modal GitHub link is incorrect: " ++
        hrefStr ((⟨true, true, true, true, some "https://example.com", false, ""⟩ :
          LinksWorld)).aboutHref) ∈
      (verify_github_links
        ⟨true, true, true, true, some "https://example.com", false, ""⟩).trace ∧
    (verify_github_links
        ⟨true, true, true, true, some "https://example.com", false, ""⟩).exc = false ∧
    exitCode (verify_github_links
        ⟨true, true, true, true, some "https://example.com", false, ""⟩) = 0 :=
  c3_exit_status_amended ⟨true, true, true, true, some "https://example.com", false, ""⟩
    rfl rfl rfl rfl (by decide)

/-! ## Claim C4 -/

/-- Claim C4 (confirmed): in `verify_github_links`, on every run that
reaches the Documentation check, the capture for the next opened
context is armed immediately before the click on the Documentation item
(the `expect_popup` pattern); when a popup opens, the run resolves to
and reports its target URL; when none opens within the wait timeout,
the failure is reported by a printed diagnostic, is not fatal to the
process, and the run still continues to the single teardown close. -/
theorem c4_popup_two_phase (w : LinksWorld)
    (hg : w.gotoOk = true) (hh : w.helpAppears = true)
    (hm : w.aboutVisible = true → w.modalAppears = true) :
    (∃ pre post, (verify_github_links w).trace =
        pre ++ [Ev.armPopup, Ev.click "text=Documentation"] ++ post) ∧
    (w.popupOpens = true →
      Ev.msg ("Documentation Link Target: " ++ w.popupUrl) ∈ (verify_github_links w).trace) ∧
    (w.popupOpens = false →
      Ev.msg "Could not verify Documentation link directly via popup: TimeoutError" ∈
          (verify_github_links w).trace ∧
      (verify_github_links w).exc = false ∧
      countClose (verify_github_links w).trace = 1) := by
  obtain ⟨t, ht, htc⟩ := links_reaches_documentation w hg hh hm
  obtain ⟨htr, hexc⟩ := documentationPhase_trace w t hh
  refine ⟨⟨t ++ [Ev.reload, Ev.waitFor "text=Help", Ev.click "text=Help"],
           docTail w ++ [Ev.close], by rw [ht, htr]; simp⟩, ?_, ?_⟩
  · intro hp
    rw [ht, htr]
    simp [docTail, hp]
  · intro hp
    refine ⟨?_, ?_, ?_⟩
    · rw [ht, htr]
      simp [docTail, hp]
    · rw [ht]
      exact hexc
    · rw [ht, htr]
      simp [countClose_append, countClose, countClose_docTail, htc]

/-- Claim C4 witness: a concrete run (About item not visible, popup
never opens) in which the armed click is present, the popup timeout is
reported, and the run is not fatal. -/
theorem c4_witness :
    (∃ pre post, (verify_github_links ⟨true, true, false, true, none, false, ""⟩).trace =
        pre ++ [Ev.armPopup, Ev.click "text=Documentation"] ++ post) ∧
    ((false : Bool) = true →
      Ev.msg ("Documentation Link Target: " ++ "") ∈
        (verify_github_links ⟨true, true, false, true, none, false, ""⟩).trace) ∧
    ((false : Bool) = false →
      Ev.msg "Could not verify Documentation link directly via popup: TimeoutError" ∈
          (verify_github_links ⟨true, true, false, true, none, false, ""⟩).trace ∧
      (verify_github_links ⟨true, true, false, true, none, false, ""⟩).exc = false ∧
      countClose (verify_github_links ⟨true, true, false, true, none, false, ""⟩).trace = 1) :=
  c4_popup_two_phase ⟨true, true, false, true, none, false, ""⟩ rfl rfl (by decide)

/-! ## Claim C5 -/

/-- Claim C5 (confirmed, against the spec-modelled resolver): for every
well-formed LocatorSpec, `resolve` always returns `ok` — in particular
it returns `ok []`, never an error, on zero live matches — and a
`ResolutionError` is only ever returned for malformed specs. -/
theorem c5_resolve_zero_matches (spec : LocatorSpec) :
    (wellFormed spec = true → ∀ dom : Dom, ∃ l, resolve dom spec = Except.ok l) ∧
    (∀ (dom : Dom) (e : ResolutionError),
        resolve dom spec = Except.error e → wellFormed spec = false) := by
  induction spec with
  | base b =>
    constructor
    · intro _ dom
      exact ⟨_, rfl⟩
    · intro dom e h
      simp [resolve] at h
  | ancestorAt a d ih =>
    constructor
    · intro hwf dom
      cases d with
      | zero => simp [wellFormed] at hwf
      | succ k =>
        obtain ⟨l, hl⟩ := ih.1 (by simpa [wellFormed] using hwf) dom
        refine ⟨l.filterMap fun p =>
          if k + 1 ≤ p.length then some (p.take (p.length - (k + 1))) else none, ?_⟩
        simp [resolve, hl]
    · intro dom e h
      cases d with
      | zero => rfl
      | succ k =>
        cases hr : resolve dom a with
        | error e2 =>
          have := ih.2 dom e2 hr
          simpa [wellFormed] using this
        | ok ms =>
          rw [resolve, hr] at h
          simp at h

/-- Claim C5 witness: a concrete well-formed text-match spec with zero
live matches resolves to the empty sequence without an error. -/
theorem c5_witness :
    (∃ l, resolve (Dom.node ⟨"Hello", "button", "Help", []⟩ [])
        (LocatorSpec.base (BaseSel.textMatch "zzz")) = Except.ok l) ∧
    resolve (Dom.node ⟨"Hello", "button", "Help", []⟩ [])
        (LocatorSpec.base (BaseSel.textMatch "zzz")) = Except.ok [] :=
  ⟨(c5_resolve_zero_matches (LocatorSpec.base (BaseSel.textMatch "zzz"))).1 rfl
      (Dom.node ⟨"Hello", "button", "Help", []⟩ []),
   rfl⟩

/-! ## Claim C6 -/

/-- Claim C6 counterexample: in `verify_ui_elements`, when the toolbar
wait fails and the error-path screenshot then itself fails, the capture
failure raises past the scenario function (`exc = true`); the identical
run with a succeeding capture does not raise.  A capture failure is
therefore not contained at the Scenario Runner boundary. -/
theorem c6_counterexample :
    (verify_ui_elements ⟨true, false, true, true, false⟩).exc = true ∧
    (verify_ui_elements ⟨true, false, true, true, true⟩).exc = false :=
  ⟨rfl, rfl⟩

/-- Claim C6 (amended): only `verify_scrollbars` contains capture
failures — its error screenshot sits in an inner `try` whose bare
`except: pass` swallows the failure silently (without recording any
"capture unavailable" note), so no exception ever escapes the function
and the browser is still closed exactly once; in `verify_ui_elements` a
failed error-path capture raises past the function. -/
theorem c6_capture_contained_amended :
    ∀ w : ScrollWorld,
      (verify_scrollbars w).exc = false ∧
      countClose (verify_scrollbars w).trace = 1 := by
  intro w
  rcases w with ⟨a, b, c, d⟩
  cases a <;> cases b <;> cases c <;> cases d <;> exact ⟨rfl, rfl⟩

/-! ## Claim C7 -/

/-- Claim C7 (confirmed, against the spec-modelled wait engine): for
every timeout T and positive poll interval, on a condition that never
becomes true `await_until` returns `timedOut` with a total elapsed
waiting time (poll count times poll interval) no earlier than T and no
later than T plus one poll interval. -/
theorem c7_timeout_window (cond : Nat → Bool) (timeout poll : Nat)
    (hc : ∀ n, cond n = false) (hp : 0 < poll) :
    (await_until cond timeout poll).1 = WaitResult.timedOut ∧
    timeout ≤ (await_until cond timeout poll).2 ∧
    (await_until cond timeout poll).2 ≤ timeout + poll := by
  have hfuel : timeout ≤ 0 + (timeout + 1) * poll := by
    have h1 : (timeout + 1) * 1 ≤ (timeout + 1) * poll :=
      Nat.mul_le_mul_left (timeout + 1) hp
    omega
  have h := awaitAux_never cond timeout poll hc (timeout + 1) 0 hfuel (by omega)
  exact ⟨h.1, h.2.1, Nat.le_of_lt h.2.2⟩

/-- Claim C7 witness: a never-true condition with timeout 250 and poll
interval 100 times out with elapsed time 300, inside the window. -/
theorem c7_witness :
    (await_until (fun _ => false) 250 100).1 = WaitResult.timedOut ∧
    250 ≤ (await_until (fun _ => false) 250 100).2 ∧
    (await_until (fun _ => false) 250 100).2 ≤ 250 + 100 :=
  c7_timeout_window (fun _ => false) 250 100 (fun _ => rfl) (by decide)

/-! ## Claim C8 -/

/-- Claim C8 counterexample: `verify_menubar` writes the artifact
`verification/menubar_icons.png`, whose file name does not follow the
`<scenario-name>_<step-index>_<kind>.png` convention (it carries no
scenario name and no numeric step index). -/
theorem c8_counterexample :
    Ev.screenshot "verification/menubar_icons.png" ∈ (verify_menubar ⟨true, true⟩).trace ∧
    followsConvention "verify_menubar" "verification/menubar_icons.png" = false := by
  refine ⟨by decide, by decide⟩

/-- Claim C8 (amended): `verify_menubar` writes its artifacts to
hard-coded ad-hoc paths under the fixed directory `verification`, and
that directory is created if absent by the script's `__main__` block
before the scenario (and hence before any artifact write), not by the
scenario function itself. -/
theorem c8_artifact_paths_amended :
    (∀ w : MenuWorld,
      (verify_menubar_main w).trace.head? = some (Ev.mkdirIfAbsent "verification")) ∧
    (∀ w : MenuWorld, ∀ p, Ev.screenshot p ∈ (verify_menubar_main w).trace →
      topDir p = "verification") := by
  constructor
  · intro w
    rcases w with ⟨a, b⟩
    cases a <;> cases b <;> rfl
  · intro w p hp
    rcases w with ⟨a, b⟩
    cases a <;> cases b <;>
      simp [verify_menubar_main, verify_menubar] at hp
    rcases hp with h | h <;> subst h <;> decide

/-- Claim C8 witness: a concrete artifact of a successful
`verify_menubar` run lives in the `verification` directory. -/
theorem c8_witness :
    topDir "verification/full_page.png" = "verification" :=
  c8_artifact_paths_amended.2 ⟨true, true⟩ "verification/full_page.png" (by decide)

/-! ## Claim C9 -/

/-- Claim C9 (confirmed): in `verify_github_links`, whenever the
About-modal branch completes without an exception (navigation and both
Help waits succeed, and the modal appears whenever the About item was
visible), the Documentation check runs unconditionally: the trace ends
with the reload, the re-opened Help menu, the armed Documentation
click, the popup-check messages and the close — for every value of
`aboutVisible` and of the About link href. -/
theorem c9_documentation_check_unconditional (w : LinksWorld)
    (hg : w.gotoOk = true) (hh : w.helpAppears = true)
    (hm : w.aboutVisible = true → w.modalAppears = true) :
    (∃ pre, (verify_github_links w).trace =
        pre ++ [Ev.reload, Ev.waitFor "text=Help", Ev.click "text=Help", Ev.armPopup,
                Ev.click "text=Documentation"] ++ docTail w ++ [Ev.close]) ∧
    (verify_github_links w).exc = false := by
  obtain ⟨t, ht, htc⟩ := links_reaches_documentation w hg hh hm
  obtain ⟨htr, hexc⟩ := documentationPhase_trace w t hh
  exact ⟨⟨t, by rw [ht, htr]⟩, by rw [ht]; exact hexc⟩

/-- Claim C9 witness: a run in which the About check failed (wrong
href) still performs the whole Documentation check. -/
theorem c9_witness :
    (∃ pre, (verify_github_links
        ⟨true, true, true, true, some "bad", true, repoUrl⟩).trace =
        pre ++ [Ev.reload, Ev.waitFor "text=Help", Ev.click "text=Help", Ev.armPopup,
                Ev.click "text=Documentation"] ++
          docTail ⟨true, true, true, true, some "bad", true, repoUrl⟩ ++ [Ev.close]) ∧
    (verify_github_links ⟨true, true, true, true, some "bad", true, repoUrl⟩).exc = false :=
  c9_documentation_check_unconditional ⟨true, true, true, true, some "bad", true, repoUrl⟩
    rfl rfl (fun _ => rfl)

/-! ## Claim C10 -/

/-- Claim C10 (confirmed): in `verify_auto_edit`, when the textarea
locator matches zero elements, the run's whole trace is the navigation
followed by the browser close: no artifact is written, no message is
printed, no exception or failure is signalled, and the process exits
with status 0 — absence of the target element is silently treated as
success. -/
theorem c10_zero_matches_silent (w : AutoWorld)
    (hg : w.gotoOk = true) (hc : w.textareaCount = 0) :
    verify_auto_edit w = ⟨[Ev.goto "http://localhost:3000", Ev.close], false⟩ ∧
    exitCode (verify_auto_edit w) = 0 := by
  rcases w with ⟨g, n⟩
  subst hg
  subst hc
  exact ⟨rfl, rfl⟩

/-- Claim C10 witness: the concrete zero-match run. -/
theorem c10_witness :
    verify_auto_edit ⟨true, 0⟩ = ⟨[Ev.goto "http://localhost:3000", Ev.close], false⟩ ∧
    exitCode (verify_auto_edit ⟨true, 0⟩) = 0 :=
  c10_zero_matches_silent ⟨true, 0⟩ rfl rfl
